import Mathlib

/-!
Verification of the equity-research ETL pipeline's numeric core
(`src/etl_pipeline2.py`) and the CRUD validators (`utils/validators.py`).

Python floats are modelled as exact rationals with explicit `nan` / `±inf`
markers; fallible operations return `Option`; machine exceptions that the
source catches are modelled as `Option.none` results.  `float(...)` string
conversion is modelled for finite decimal literals and the `inf` / `infinity`
/ `nan` literal words (exponent notation, underscores and surrounding
whitespace are outside the scope of the claims checked here).
-/

namespace EquityETL

/-- The result of a successful Python `float(...)` conversion: a finite
value (exact rational), a NaN, or a signed infinity. -/
inductive PyFloat where
  | finite (q : ℚ)
  | pnan
  | pinf
  | ninf
deriving DecidableEq

/-- A Python value as it can appear in a sparse statement record or a
price-data row: `None`, a finite float, a float NaN, a float infinity
(`neg` marks `-inf`), a string, or some other non-convertible object. -/
inductive PyVal where
  | pyNone
  | fin (q : ℚ)
  | fnan
  | finf (neg : Bool)
  | str (s : String)
  | obj
deriving DecidableEq

/-- `pd.isna` on a scalar: true exactly for `None` and float NaN
(strings and other objects are not NA). -/
def pdIsNA : PyVal → Bool
  | PyVal.pyNone => true
  | PyVal.fnan => true
  | _ => false

/-- Python `str.lower()`, modelled characterwise (the strings this
pipeline compares are ASCII). -/
def strLower (s : String) : String := String.mk (s.data.map Char.toLower)

/-- Numeric value of a digit list, most significant first. -/
def natOfDigits (cs : List Char) : ℕ :=
  cs.foldl (fun a c => a * 10 + (c.toNat - 48)) 0

/-- Unsigned decimal literal: `digits`, `digits.digits`, `digits.` or
`.digits`; anything else fails (models the `ValueError` branch). -/
def parseUnsigned (cs : List Char) : Option ℚ :=
  let ip := cs.takeWhile (fun c => c ≠ '.')
  let rest := cs.dropWhile (fun c => c ≠ '.')
  if !(ip.all Char.isDigit) then Option.none
  else
    match rest with
    | [] => if ip.isEmpty then Option.none else some ((natOfDigits ip : ℚ))
    | _ :: frac =>
      if frac.isEmpty && ip.isEmpty then Option.none
      else if !(frac.all Char.isDigit) then Option.none
      else some ((natOfDigits ip : ℚ) + (natOfDigits frac : ℚ) / (10 : ℚ) ^ frac.length)

/-- Python `float(s)` on a string: the `inf` / `infinity` / `nan` words
(case-insensitive, optional sign on the infinities and on `nan` — CPython
accepts `"+nan"` and `"-nan"`) or a signed finite decimal literal; `none`
models the raised `ValueError`. -/
def pyFloatOfString (s : String) : Option PyFloat :=
  let t := strLower s
  if t = "inf" || t = "infinity" || t = "+inf" || t = "+infinity" then some PyFloat.pinf
  else if t = "-inf" || t = "-infinity" then some PyFloat.ninf
  else if t = "nan" || t = "+nan" || t = "-nan" then some PyFloat.pnan
  else
    match t.toList with
    | '+' :: rest => (parseUnsigned rest).map PyFloat.finite
    | '-' :: rest => (parseUnsigned rest).map (fun q => PyFloat.finite (-q))
    | cs => (parseUnsigned cs).map PyFloat.finite

/-- Python `float(value)`; `none` models a raised `TypeError`/`ValueError`. -/
def pyFloat : PyVal → Option PyFloat
  | PyVal.pyNone => Option.none
  | PyVal.fin q => some (PyFloat.finite q)
  | PyVal.fnan => some PyFloat.pnan
  | PyVal.finf b => some (if b then PyFloat.ninf else PyFloat.pinf)
  | PyVal.str s => pyFloatOfString s
  | PyVal.obj => Option.none

/-- The string markers that `safe_get` rejects before attempting conversion:
`isinstance(value, str) and value.lower() in ['nan', 'none', 'null', '']`. -/
def isBadStr : PyVal → Bool
  | PyVal.str s =>
      strLower s = "nan" || strLower s = "none" || strLower s = "null" || strLower s = ""
  | _ => false

/-- `np.isinf` on a float result. -/
def isInf : PyFloat → Bool
  | PyFloat.pinf => true
  | PyFloat.ninf => true
  | _ => false

/-- A sparse statement record: an association list from field name to value
(models a pandas Series indexed by field name). -/
def Record := List (String × PyVal)

/-- `EquityETLPipeline.safe_get`: look the key up in the record's index,
reject `None`, NA values and the bad-string markers, convert with
`float(...)` (conversion failure caught), and reject infinities.
The surrounding `try`/`except` means the function never raises — modelled
here by totality. -/
def safe_get (data : Record) (key : String) : Option PyFloat :=
  match data.lookup key with
  | Option.none => Option.none
  | some v =>
    if v = PyVal.pyNone then Option.none
    else if pdIsNA v then Option.none
    else if isBadStr v then Option.none
    else
      match pyFloat v with
      | Option.none => Option.none
      | some f => if isInf f then Option.none else some f

/-- Modelled from the spec's contract wording (§4.1), for comparison with
`safe_get`: return the converted floating-point number, or the absent
marker when the field is missing, null, one of the strings
`nan`/`none`/`null`/empty, not convertible to a number (NaN results
included), or infinite. -/
def spec_safe_extract (data : Record) (key : String) : Option PyFloat :=
  match data.lookup key with
  | Option.none => Option.none
  | some v =>
    if v = PyVal.pyNone then Option.none
    else if isBadStr v then Option.none
    else
      match pyFloat v with
      | some (PyFloat.finite q) => some (PyFloat.finite q)
      | _ => Option.none

/-- Python truthiness of an extraction result: `None` and `0.0` are falsy,
every other float (NaN and infinities included) is truthy. -/
def pyTruthy : Option PyFloat → Bool
  | Option.none => false
  | some (PyFloat.finite q) => !(q = 0)
  | some _ => true

/-- A caller-side synonym chain `safe_get(d, k1) or safe_get(d, k2) or ...`
as written in `load_income_statement`: Python `or` returns the first truthy
operand, else the *last* operand — so an all-falsy chain yields whatever
the last extraction produced, an extracted `0.0` included.  The source
chains always have at least one synonym; the `[]` case is unreachable. -/
def resolve_synonyms (data : Record) (keys : List String) : Option PyFloat :=
  match keys with
  | [] => Option.none
  | [k] => safe_get data k
  | k :: ks =>
    let v := safe_get data k
    if pyTruthy v then v else resolve_synonyms data ks

/-- `np.mean` over a list of exact values. -/
def listMean (l : List ℚ) : ℚ := l.sum / l.length

/-- EPS forecast dictionary returned by `calculate_eps_forecast`. -/
structure EpsForecast where
  current_eps : ℚ
  forecasted_eps : ℚ
  growth_rate : ℚ
  dampened_growth_rate : ℚ
deriving DecidableEq

/-- Revenue forecast dictionary returned by `calculate_revenue_forecast`. -/
structure RevenueForecast where
  last_quarter_revenue : ℚ
  annualized_revenue : ℚ
  forecasted_annual_revenue : ℚ
  growth_rate : ℚ
deriving DecidableEq

/-- Quarter-over-quarter growth rates of a chronological value list:
`(v[i] - v[i-1]) / abs(v[i-1])`, a pair being skipped when the previous
value is zero (EPS variant). -/
def growth_rates : List ℚ → List ℚ
  | a :: b :: rest =>
      (if a ≠ 0 then [(b - a) / |a|] else []) ++ growth_rates (b :: rest)
  | _ => []

/-- Quarter-over-quarter growth rates, revenue variant: a pair is used only
when the previous value is strictly positive, and no `abs` is applied. -/
def revenue_growth_rates : List ℚ → List ℚ
  | a :: b :: rest =>
      (if 0 < a then [(b - a) / a] else []) ++ revenue_growth_rates (b :: rest)
  | _ => []

/-- `EquityETLPipeline.calculate_eps_forecast`, starting from the queried
rows (most-recent-first, `eps_diluted` possibly NULL).  Fewer than 2 rows,
or fewer than 2 non-null values, or an empty growth-rate list yield `none`;
otherwise the dampened projection dictionary is returned. -/
def calculate_eps_forecast (rows : List (Option ℚ)) : Option EpsForecast :=
  if rows.length < 2 then Option.none
  else
    let eps_values := (rows.filterMap id).reverse
    if eps_values.length < 2 then Option.none
    else
      let rates := growth_rates eps_values
      if rates.isEmpty then Option.none
      else
        let avg_growth := listMean rates
        let current_eps := eps_values.getLast?.getD 0
        let dampened_growth := avg_growth * (7 / 10)
        some { current_eps := current_eps,
               forecasted_eps := current_eps * (1 + dampened_growth * 4),
               growth_rate := avg_growth * 100,
               dampened_growth_rate := dampened_growth * 4 * 100 }

/-- `EquityETLPipeline.calculate_revenue_forecast`, starting from the
queried rows (most-recent-first; the SQL filters NULL revenue but the
comprehension filters again). -/
def calculate_revenue_forecast (rows : List (Option ℚ)) : Option RevenueForecast :=
  if rows.length < 2 then Option.none
  else
    let revenue_values := (rows.filterMap id).reverse
    if revenue_values.length < 2 then Option.none
    else
      let rates := revenue_growth_rates revenue_values
      if rates.isEmpty then Option.none
      else
        let avg_growth := listMean rates
        let current_revenue := revenue_values.getLast?.getD 0
        let dampened_growth := avg_growth * (3 / 4)
        let annualized := (revenue_values.getLast?.getD 0) * 4
        some { last_quarter_revenue := current_revenue,
               annualized_revenue := annualized,
               forecasted_annual_revenue := annualized * (1 + dampened_growth * 4),
               growth_rate := avg_growth * 100 }

/-- Recommendation from the forecast percentage price change, exactly the
if/elif chain of `calculate_stock_price_forecast` (first match wins). -/
def recommendationFor (pct : ℚ) : String :=
  if pct > 15 then "Strong Buy"
  else if pct > 7 then "Buy"
  else if pct < -15 then "Strong Sell"
  else if pct < -7 then "Sell"
  else "Hold"

/-- Last value of `pandas.Series.ewm(span=20).mean()` (default
`adjust=True`): weighted average with weights `(19/21)^i` over the series
reversed, computed by the standard numerator/denominator recurrence. -/
def ewmaLast (xs : List ℚ) : ℚ :=
  let p := xs.foldl (fun (nd : ℚ × ℚ) x => (x + (19 / 21) * nd.1, 1 + (19 / 21) * nd.2))
    ((0 : ℚ), (0 : ℚ))
  p.1 / p.2

/-- `recent_trend = (close[-1] - close[-20]) / close[-20] * 100`. -/
def recentTrend (cp : List ℚ) : ℚ :=
  let prev := cp.getD (cp.length - 20) 0
  let last := cp.getD (cp.length - 1) 0
  (last - prev) / prev * 100

/-- Last value of `rolling(window=n).mean()`: mean of the last `n` points. -/
def smaN (n : ℕ) (cp : List ℚ) : ℚ := listMean (cp.drop (cp.length - n))

/-- Day-over-day percent changes `pct_change()` with the leading NaN
dropped (as `.std()` skips it).  A zero previous price gives an infinite
change in the source; it is junk-valued here, which none of the checked
claims depend on. -/
def pctChanges : List ℚ → List ℚ
  | a :: b :: rest => (b - a) / a :: pctChanges (b :: rest)
  | _ => []

/-- Sample variance with `ddof=1` (the pandas `.std()` default), squared
volatility before annualization. -/
def sampleVariance (l : List ℚ) : ℚ :=
  let m := listMean l
  (l.map (fun x => (x - m) ^ 2)).sum / ((l.length : ℚ) - 1)

/-- Square of the annualized volatility
`pct_change().std() * sqrt(252)` (the volatility itself is an irrational
square root; claims about it are phrased through any `v ≥ 0` with
`v * v = annualizedVariance cp`). -/
def annualizedVariance (cp : List ℚ) : ℚ :=
  sampleVariance (pctChanges cp) * 252

/-- `price_momentum = abs(recent_trend) / 100`. -/
def priceMomentum (cp : List ℚ) : ℚ := |recentTrend cp| / 100

/-- `confidence = min(0.95, 0.5 + price_momentum * 0.3 + volatility_factor * 0.2)`
with `volatility_factor = 1 / (1 + volatility)`. -/
def confidenceScore (momentum v : ℚ) : ℚ :=
  min (19 / 20) (1 / 2 + momentum * (3 / 10) + (1 / (1 + v)) * (1 / 5))

/-- Price part of the forecast dictionary built by
`calculate_stock_price_forecast` (the confidence score, being a real
square-root expression, is treated by `confidenceScore` above). -/
structure PriceForecast where
  target_price : ℚ
  current_price : ℚ
  price_change_pct : ℚ
  recommendation : String
  trend_strength : ℚ
  sma_20 : ℚ
  sma_50 : ℚ
deriving DecidableEq

/-- Body of `calculate_stock_price_forecast` after the length guards, on
the (possibly cutoff-truncated) close-price series. -/
def forecastCore (cp : List ℚ) : PriceForecast :=
  let ewma_current := ewmaLast cp
  let recent_trend := recentTrend cp
  let sma_20 := smaN 20 cp
  let sma_50 := if 50 ≤ cp.length then smaN 50 cp else sma_20
  let current_price := cp.getD (cp.length - 1) 0
  let trend_strength := recent_trend / 100
  let ewma_forecast := ewma_current * (1 + trend_strength * (3 / 10))
  let trend_forecast := current_price * (1 + trend_strength * (1 / 5))
  let mr_forecast := (sma_20 + sma_50) / 2 * (1 + trend_strength * (1 / 10))
  let target_price := ewma_forecast * (2 / 5) + trend_forecast * (3 / 10) + mr_forecast * (3 / 10)
  let price_change_pct := (target_price - current_price) / current_price * 100
  { target_price := target_price,
    current_price := current_price,
    price_change_pct := price_change_pct,
    recommendation := recommendationFor price_change_pct,
    trend_strength := trend_strength,
    sma_20 := sma_20,
    sma_50 := sma_50 }

/-- `EquityETLPipeline.calculate_stock_price_forecast` (price portion):
fewer than 20 points, or a backtesting cutoff below 20, yield `none`;
otherwise the core formulas run on the prefix up to the cutoff. -/
def calculate_stock_price_forecast (prices : List ℚ) (cutoff : Option ℕ) :
    Option PriceForecast :=
  if prices.length < 20 then Option.none
  else
    match cutoff with
    | some c => if c < 20 then Option.none else some (forecastCore (prices.take c))
    | Option.none => some (forecastCore prices)

/-- `PriceValidator.validate_ohlc` from `utils/validators.py`: `some msg`
models a raised `ValidationError` with that message (checks run in source
order, the first failing check raises); `none` models a normal return. -/
def validate_ohlc (open_price high low close : ℚ) : Option String :=
  if high < low then some "High price must be >= Low price"
  else if high < open_price then some "High price must be >= Open price"
  else if high < close then some "High price must be >= Close price"
  else if low > open_price then some "Low price must be <= Open price"
  else if low > close then some "Low price must be <= Close price"
  else Option.none

/-- `EquityETLPipeline.safe_get_price`: `None`/NA degrade to `none`, then
`float(...)` (failure caught to `none`), then the range check
`price <= 0 or price > 1000000` rejects to `none`.  Note that a NaN float
parsed out of a string passes the range check (both comparisons are false
on NaN) and is returned. -/
def safe_get_price (v : PyVal) : Option PyFloat :=
  if v = PyVal.pyNone then Option.none
  else if pdIsNA v then Option.none
  else
    match pyFloat v with
    | Option.none => Option.none
    | some (PyFloat.finite q) =>
        if q ≤ 0 ∨ 1000000 < q then Option.none else some (PyFloat.finite q)
    | some PyFloat.pnan => some PyFloat.pnan
    | some PyFloat.pinf => Option.none
    | some PyFloat.ninf => Option.none

/-- Python `int(q)` on a finite float: truncation toward zero. -/
def pyInt (q : ℚ) : ℤ := if 0 ≤ q then ⌊q⌋ else -⌊-q⌋

/-- Python `int(s)` on a string: optional sign followed by digits only
(`int("3.5")` raises, modelled as `none`). -/
def parseInt (s : String) : Option ℤ :=
  match s.toList with
  | '+' :: cs =>
      if cs ≠ [] && cs.all Char.isDigit then some ((natOfDigits cs : ℤ)) else Option.none
  | '-' :: cs =>
      if cs ≠ [] && cs.all Char.isDigit then some (-(natOfDigits cs : ℤ)) else Option.none
  | cs =>
      if cs ≠ [] && cs.all Char.isDigit then some ((natOfDigits cs : ℤ)) else Option.none

/-- `EquityETLPipeline.safe_get_volume`: `None`/NA degrade to `0`, `int(...)`
failures (strings that are not integer literals, infinities, objects) are
caught to `0`, and a negative result degrades to `0`; the function always
returns a non-negative integer, never an absent marker. -/
def safe_get_volume (v : PyVal) : ℤ :=
  if v = PyVal.pyNone then 0
  else if pdIsNA v then 0
  else
    match v with
    | PyVal.fin q => let n := pyInt q; if n < 0 then 0 else n
    | PyVal.str s =>
        match parseInt s with
        | some n => if n < 0 then 0 else n
        | Option.none => 0
    | _ => 0

/-- One raw row of the provider's price DataFrame. -/
structure RawRow where
  date : ℤ
  openV : PyVal
  highV : PyVal
  lowV : PyVal
  closeV : PyVal
  volumeV : PyVal
deriving DecidableEq

/-- One parameter tuple handed to the `StockPrices` upsert. -/
structure PersistedPrice where
  company_id : ℕ
  date : ℤ
  openP : Option PyFloat
  highP : Option PyFloat
  lowP : Option PyFloat
  closeP : PyFloat
  adjP : PyFloat
  volume : ℤ
deriving DecidableEq

/-- The loader's skip test `close_price is None or pd.isna(close_price)`
on an extracted close value. -/
def closeMissing : Option PyFloat → Bool
  | Option.none => true
  | some PyFloat.pnan => true
  | some _ => false

/-- Row loop of `EquityETLPipeline.load_stock_prices`: extract each field
with the safe extractors, skip the row (counting an error) when the close
is missing/NA, otherwise persist the tuple with `adjusted_close = close`.
Returns (persisted rows, success count, error count); the database accept
is modelled as always succeeding. -/
def load_stock_prices (cid : ℕ) : List RawRow → List PersistedPrice × ℕ × ℕ
  | [] => ([], 0, 0)
  | r :: rest =>
    let tail := load_stock_prices cid rest
    match safe_get_price r.closeV with
    | Option.none => (tail.1, tail.2.1, tail.2.2 + 1)
    | some f =>
      if f = PyFloat.pnan then (tail.1, tail.2.1, tail.2.2 + 1)
      else
        ({ company_id := cid, date := r.date,
           openP := safe_get_price r.openV,
           highP := safe_get_price r.highV,
           lowP := safe_get_price r.lowV,
           closeP := f, adjP := f,
           volume := safe_get_volume r.volumeV } :: tail.1,
         tail.2.1 + 1, tail.2.2)

/-- Fields of the price-forecast dictionary that `load_forecast` reads. -/
structure ForecastData where
  target_price : ℚ
  recommendation : String
  confidence_score : ℚ
deriving DecidableEq

/-- One row of the `Forecasts` insert. -/
structure ForecastRow where
  company_id : ℕ
  forecast_date : ℤ
  target_date : ℤ
  target_price : Option ℚ
  revenue_forecast : ℚ
  eps_forecast : ℚ
  recommendation : String
  confidence_score : ℚ
  model_version : String
deriving DecidableEq

/-- `EquityETLPipeline.load_forecast`.  Dates are day numbers; `today`
models `datetime.now().date()`.  The source guards `target_price` /
`recommendation` / `confidence` with `if forecast_data else` defaults, but
builds the parameter tuple with the unguarded subscripts
`revenue_forecast["forecasted_annual_revenue"]` and
`eps_forecast["forecasted_eps"]`: when either dictionary is `None` the
subscript raises `TypeError`, the enclosing `except` catches it and the
function returns `False` with no row written — modelled as `none`.
(The guarded locals `revenue` and `eps` computed just before are unused
dead code in the source.) -/
def load_forecast (cid : ℕ) (forecast_data : Option ForecastData)
    (revenue_forecast : Option RevenueForecast) (eps_forecast : Option EpsForecast)
    (forecast_date target_date : Option ℤ) (today : ℤ) : Option ForecastRow :=
  let fd := forecast_date.getD today
  let td := target_date.getD (fd + 30)
  match revenue_forecast, eps_forecast with
  | some rf, some ef =>
      some { company_id := cid, forecast_date := fd, target_date := td,
             target_price := forecast_data.map (fun d => d.target_price),
             revenue_forecast := rf.forecasted_annual_revenue,
             eps_forecast := ef.forecasted_eps,
             recommendation := (forecast_data.map (fun d => d.recommendation)).getD "Hold",
             confidence_score := (forecast_data.map (fun d => d.confidence_score)).getD (1 / 2),
             model_version := "Mathematical-v1.0" }
  | _, _ => Option.none

/-- A caller-side synonym pair from `load_income_statement`
(`Operating Income`, then `EBIT`), with a reported operating income of
exactly `0.0`. -/
def income_record : Record :=
  [("Operating Income", PyVal.fin 0), ("EBIT", PyVal.fin 5)]

/-- Modelled from the spec's §4.1 contract wording, amended only where
the counterexample below forces it: a string that converts to NaN while
evading the lowercase marker-string list (e.g. `"+nan"`) is returned as a
NaN float instead of the absent marker; every other case is as the
contract states (absent on missing, null, NA, marker string,
conversion failure, or infinity; the finite converted value otherwise). -/
def spec_safe_extract_amended (data : Record) (key : String) : Option PyFloat :=
  match data.lookup key with
  | Option.none => Option.none
  | some v =>
    if v = PyVal.pyNone then Option.none
    else if pdIsNA v then Option.none
    else if isBadStr v then Option.none
    else
      match pyFloat v with
      | some (PyFloat.finite q) => some (PyFloat.finite q)
      | some PyFloat.pnan => some PyFloat.pnan
      | _ => Option.none

/-- Claim C7, counterexample: `"+nan"` is a CPython float literal
(`float("+nan")` is NaN) whose lowercase form is not in the marker-string
list `['nan', 'none', 'null', '']`, so the real `safe_get` returns a NaN
float for it, while the §4.1 contract — which reads a NaN result as not
convertible to a number — demands the absent marker: the claimed contract
equality fails at this record. -/
theorem safe_get_signed_nan_breaks_contract :
    safe_get [("x", PyVal.str "+nan")] "x" = some PyFloat.pnan
    ∧ spec_safe_extract [("x", PyVal.str "+nan")] "x" = Option.none
    ∧ safe_get [("x", PyVal.str "+nan")] "x" ≠
        spec_safe_extract [("x", PyVal.str "+nan")] "x" := by
  refine ⟨by decide, by decide, by decide⟩

/-- Claim C7 as amended: the safe field extractor is total (modelled by a
total Lean function — the source wraps everything in `try`/`except`) and
agrees everywhere with the amended contract: the converted value, or the
absent marker when the field is missing, null, NA, one of the bad marker
strings, not convertible at all, or infinite — except that a string
converting to NaN (e.g. `"+nan"`) yields a NaN float result rather than
the absent marker. -/
theorem safe_get_meets_amended_contract :
    ∀ (data : Record) (key : String),
      safe_get data key = spec_safe_extract_amended data key := by
  intro data key
  unfold safe_get spec_safe_extract_amended
  cases data.lookup key with
  | none => rfl
  | some v =>
    cases v with
    | pyNone => simp
    | fin q => simp [pdIsNA, isBadStr, pyFloat, isInf]
    | fnan => simp [pdIsNA, isBadStr, pyFloat]
    | finf b => cases b <;> simp [pdIsNA, isBadStr, pyFloat, isInf]
    | obj => simp [pdIsNA, isBadStr, pyFloat]
    | str s =>
      by_cases hb : isBadStr (PyVal.str s)
      · simp [hb, pdIsNA]
      · cases hf : pyFloat (PyVal.str s) with
        | none => simp [hb, pdIsNA, hf]
        | some f =>
          cases f with
          | finite q => simp [hb, pdIsNA, hf, isInf]
          | pnan => simp [hb, pdIsNA, hf, isInf]
          | pinf => simp [hb, pdIsNA, hf, isInf]
          | ninf => simp [hb, pdIsNA, hf, isInf]

/-- Claim C2, counterexample: the first synonym (`Operating Income`) is
present and extracts to the non-absent value `0.0`, yet the synonym chain
returns the second synonym's value `5.0` — Python `or` treats `0.0` as
falsy, so first-match-wins fails exactly at zero.  The last two conjuncts
record the faithful all-falsy tail behavior: `or` then returns the *last*
operand, so an all-zero chain yields `0.0` (`0.0 or 0.0` is `0.0`, and
`None or 0.0` is `0.0`). -/
theorem resolve_synonyms_zero_first_falls_through :
    safe_get income_record "Operating Income" = some (PyFloat.finite 0)
    ∧ resolve_synonyms income_record ["Operating Income", "EBIT"] = some (PyFloat.finite 5)
    ∧ resolve_synonyms income_record ["Operating Income", "EBIT"] ≠ some (PyFloat.finite 0)
    ∧ resolve_synonyms [("Operating Income", PyVal.fin 0), ("EBIT", PyVal.fin 0)]
        ["Operating Income", "EBIT"] = some (PyFloat.finite 0)
    ∧ resolve_synonyms [("EBIT", PyVal.fin 0)] ["Operating Income", "EBIT"] =
        some (PyFloat.finite 0) := by
  refine ⟨by decide, by decide, by decide, by decide, by decide⟩

/-- Claim C2 as amended: first-match-wins holds whenever the first synonym
extracts to a non-absent and *non-zero* value `v`; the chain then returns
exactly `v` and the later synonyms are irrelevant (they appear only in an
untaken branch).  A first value of `0.0` instead falls through to the
remaining synonyms (and an all-falsy chain returns the last operand). -/
theorem resolve_synonyms_first_nonzero_wins :
    ∀ (data : Record) (k : String) (ks : List String) (q : ℚ),
      safe_get data k = some (PyFloat.finite q) → q ≠ 0 →
      resolve_synonyms data (k :: ks) = some (PyFloat.finite q) := by
  intro data k ks q h hq
  cases ks with
  | nil => simpa [resolve_synonyms] using h
  | cons k2 ks2 =>
    simp only [resolve_synonyms, h, pyTruthy]
    simp [hq]

/-- Concrete instantiation of `resolve_synonyms_first_nonzero_wins`: the
chain starting at `EBIT` (value `5.0`) returns `5.0`. -/
theorem resolve_synonyms_first_nonzero_wins_check :
    resolve_synonyms income_record ["EBIT"] = some (PyFloat.finite 5) :=
  resolve_synonyms_first_nonzero_wins income_record "EBIT" [] 5 (by decide) (by norm_num)

lemma growth_rates_ne_nil_length {l : List ℚ} (h : growth_rates l ≠ []) :
    2 ≤ l.length := by
  match l with
  | [] => exact absurd rfl h
  | [a] => exact absurd rfl h
  | a :: b :: rest => simp

lemma revenue_growth_rates_ne_nil_length {l : List ℚ} (h : revenue_growth_rates l ≠ []) :
    2 ≤ l.length := by
  match l with
  | [] => exact absurd rfl h
  | [a] => exact absurd rfl h
  | a :: b :: rest => simp

/-- Claim C3, counterexample: the two-value histories below each yield
exactly one usable growth pair — fewer than the 2 the claim requires —
yet both extrapolators return a forecast, not the absent marker.  The
source gates only on `if quarterly_growth_rates:` (at least one pair). -/
theorem single_growth_pair_still_forecasts :
    (growth_rates [1, 2]).length = 1
    ∧ calculate_eps_forecast [some 2, some 1] ≠ Option.none
    ∧ (revenue_growth_rates [1, 2]).length = 1
    ∧ calculate_revenue_forecast [some 2, some 1] ≠ Option.none := by
  refine ⟨by decide, by decide, by decide, by decide⟩

/-- Claim C3 as amended: the extrapolators return the absent marker exactly
when fewer than 2 rows were found, or fewer than 2 non-null values remain,
or *no* consecutive pair has a usable denominator (non-zero for EPS,
strictly positive for revenue); a single usable pair already produces a
forecast. -/
theorem extrapolation_absent_iff_no_usable_pair :
    ∀ rows : List (Option ℚ),
      (calculate_eps_forecast rows = Option.none ↔
        rows.length < 2 ∨ ((rows.filterMap id).reverse).length < 2 ∨
          growth_rates ((rows.filterMap id).reverse) = [])
      ∧ (calculate_revenue_forecast rows = Option.none ↔
        rows.length < 2 ∨ ((rows.filterMap id).reverse).length < 2 ∨
          revenue_growth_rates ((rows.filterMap id).reverse) = []) := by
  intro rows
  constructor
  · simp only [calculate_eps_forecast]
    split_ifs with h1 h2 h3
    · exact iff_of_true rfl (Or.inl h1)
    · exact iff_of_true rfl (Or.inr (Or.inl h2))
    · exact iff_of_true rfl (Or.inr (Or.inr (List.isEmpty_iff.mp h3)))
    · refine iff_of_false (by simp) ?_
      have hne : growth_rates ((rows.filterMap id).reverse) ≠ [] := by
        intro hnil
        exact h3 (by simp [hnil])
      rintro (ha | hb | hc)
      · exact h1 ha
      · exact h2 hb
      · exact hne hc
  · simp only [calculate_revenue_forecast]
    split_ifs with h1 h2 h3
    · exact iff_of_true rfl (Or.inl h1)
    · exact iff_of_true rfl (Or.inr (Or.inl h2))
    · exact iff_of_true rfl (Or.inr (Or.inr (List.isEmpty_iff.mp h3)))
    · refine iff_of_false (by simp) ?_
      have hne : revenue_growth_rates ((rows.filterMap id).reverse) ≠ [] := by
        intro hnil
        exact h3 (by simp [hnil])
      rintro (ha | hb | hc)
      · exact h1 ha
      · exact h2 hb
      · exact hne hc

/-- Concrete instantiation of `extrapolation_absent_iff_no_usable_pair`:
two NULL rows leave fewer than 2 usable values, so the EPS extrapolator
returns the absent marker. -/
theorem extrapolation_absent_iff_no_usable_pair_check :
    calculate_eps_forecast [Option.none, Option.none] = Option.none :=
  (extrapolation_absent_iff_no_usable_pair [Option.none, Option.none]).1.mpr
    (Or.inr (Or.inl (by decide)))

/-- Claim C6: whenever at least one usable growth pair exists, the EPS
forecast equals `last_value * (1 + (avg_growth * 0.7) * 4)` with
`avg_growth` the mean of the non-zero-denominator pair growth rates; in
particular the chronological history `[1.00, 1.10, 1.21]` (queried rows
are most-recent-first) forecasts `968/625 = 1.5488`. -/
theorem eps_extrapolation_formula :
    (∀ rows : List (Option ℚ),
      growth_rates ((rows.filterMap id).reverse) ≠ [] →
      calculate_eps_forecast rows =
        some { current_eps := ((rows.filterMap id).reverse).getLast?.getD 0,
               forecasted_eps := ((rows.filterMap id).reverse).getLast?.getD 0 *
                 (1 + listMean (growth_rates ((rows.filterMap id).reverse)) * (7 / 10) * 4),
               growth_rate := listMean (growth_rates ((rows.filterMap id).reverse)) * 100,
               dampened_growth_rate :=
                 listMean (growth_rates ((rows.filterMap id).reverse)) * (7 / 10) * 4 * 100 })
    ∧ calculate_eps_forecast [some (121 / 100), some (11 / 10), some 1] =
        some { current_eps := 121 / 100, forecasted_eps := 968 / 625,
               growth_rate := 10, dampened_growth_rate := 28 } := by
  constructor
  · intro rows h
    have hv : 2 ≤ ((rows.filterMap id).reverse).length := growth_rates_ne_nil_length h
    have hr : 2 ≤ rows.length := by
      have hf := List.length_filterMap_le id rows
      rw [List.length_reverse] at hv
      omega
    have hne : ¬((growth_rates ((rows.filterMap id).reverse)).isEmpty = true) := by
      intro hi
      exact h (List.isEmpty_iff.mp hi)
    simp only [calculate_eps_forecast]
    rw [if_neg (Nat.not_lt.mpr hr), if_neg (Nat.not_lt.mpr hv), if_neg hne]
  · have h1 : |(1 : ℚ)| = 1 := abs_of_pos (by norm_num)
    have h2 : |(11 / 10 : ℚ)| = 11 / 10 := abs_of_pos (by norm_num)
    have h3 : List.filterMap id [some (121 / 100), some (11 / 10), some (1 : ℚ)] =
        [121 / 100, 11 / 10, 1] := rfl
    norm_num [calculate_eps_forecast, h3, growth_rates, listMean, h1, h2,
      EpsForecast.mk.injEq]

/-- Concrete instantiation of `eps_extrapolation_formula` at the spec's
scenario history. -/
theorem eps_extrapolation_formula_check :
    calculate_eps_forecast [some (121 / 100), some (11 / 10), some 1] =
      some { current_eps := 121 / 100, forecasted_eps := 968 / 625,
             growth_rate := 10, dampened_growth_rate := 28 } := by
  have h1 : |(1 : ℚ)| = 1 := abs_of_pos (by norm_num)
  have h2 : |(11 / 10 : ℚ)| = 11 / 10 := abs_of_pos (by norm_num)
  have h3 : List.filterMap id [some (121 / 100), some (11 / 10), some (1 : ℚ)] =
      [121 / 100, 11 / 10, 1] := rfl
  have h := eps_extrapolation_formula.1 [some (121 / 100), some (11 / 10), some 1]
    (by
      norm_num [growth_rates, h1, h3]
      exact List.cons_ne_nil _ _)
  rw [h]
  norm_num [h3, growth_rates, listMean, h1, h2, EpsForecast.mk.injEq]

/-- Claim C4: the recommendation thresholds are exact, ordered and
first-match-wins — each band maps to its bucket, `15.0 → Buy`,
`16.0 → Strong Buy`, `-7.0 → Hold`, and every forecast the estimator
emits carries `recommendationFor` of its own `price_change_pct`. -/
theorem recommendation_thresholds :
    (∀ p : ℚ, 15 < p → recommendationFor p = "Strong Buy")
    ∧ (∀ p : ℚ, 7 < p → p ≤ 15 → recommendationFor p = "Buy")
    ∧ (∀ p : ℚ, p < -15 → recommendationFor p = "Strong Sell")
    ∧ (∀ p : ℚ, -15 ≤ p → p < -7 → recommendationFor p = "Sell")
    ∧ (∀ p : ℚ, -7 ≤ p → p ≤ 7 → recommendationFor p = "Hold")
    ∧ recommendationFor 15 = "Buy"
    ∧ recommendationFor 16 = "Strong Buy"
    ∧ recommendationFor (-7) = "Hold"
    ∧ (∀ (prices : List ℚ) (cutoff : Option ℕ) (out : PriceForecast),
        calculate_stock_price_forecast prices cutoff = some out →
        out.recommendation = recommendationFor out.price_change_pct) := by
  refine ⟨?_, ?_, ?_, ?_, ?_, ?_, ?_, ?_, ?_⟩
  · intro p hp
    unfold recommendationFor
    rw [if_pos hp]
  · intro p hp hp15
    unfold recommendationFor
    rw [if_neg (by linarith), if_pos hp]
  · intro p hp
    unfold recommendationFor
    rw [if_neg (by linarith), if_neg (by linarith), if_pos hp]
  · intro p hp hp7
    unfold recommendationFor
    rw [if_neg (by linarith), if_neg (by linarith), if_neg (by linarith), if_pos hp7]
  · intro p hp hp7
    unfold recommendationFor
    rw [if_neg (by linarith), if_neg (by linarith), if_neg (by linarith),
      if_neg (by linarith)]
  · unfold recommendationFor
    norm_num
  · unfold recommendationFor
    norm_num
  · unfold recommendationFor
    norm_num
  · intro prices cutoff out h
    unfold calculate_stock_price_forecast at h
    cases cutoff with
    | none =>
      split_ifs at h
      dsimp only at h
      injection h with h
      subst h
      rfl
    | some c =>
      split_ifs at h
      dsimp only at h
      split_ifs at h
      injection h with h
      subst h
      rfl

/-- Concrete instantiation of `recommendation_thresholds` at the spec's
boundary points. -/
theorem recommendation_thresholds_check :
    recommendationFor 16 = "Strong Buy" ∧ recommendationFor (15 : ℚ) = "Buy"
    ∧ recommendationFor (-7 : ℚ) = "Hold" :=
  ⟨recommendation_thresholds.1 16 (by norm_num),
   recommendation_thresholds.2.1 15 (by norm_num) (by norm_num),
   recommendation_thresholds.2.2.2.2.1 (-7) (by norm_num) (by norm_num)⟩

/-- Claim C5: for any close-price series of length ≥ 20 and the (real,
non-negative) annualized volatility `v` — characterized by `0 ≤ v` and
`v * v = annualizedVariance cp` — the confidence score equals
`min(0.95, 0.5 + 0.3·|recent_trend|/100 + 0.2·(1/(1+v)))` and lies in
`[0.5, 0.95]`: the min-clamp gives the upper bound, and the
non-negativity of both additive terms gives the lower bound. -/
theorem confidence_score_formula_and_bounds :
    ∀ (cp : List ℚ) (v : ℚ), 20 ≤ cp.length → 0 ≤ v →
      v * v = annualizedVariance cp →
      confidenceScore (priceMomentum cp) v
          = min (19 / 20)
              (1 / 2 + (3 / 10) * (|recentTrend cp| / 100) + (1 / 5) * (1 / (1 + v)))
      ∧ 1 / 2 ≤ confidenceScore (priceMomentum cp) v
      ∧ confidenceScore (priceMomentum cp) v ≤ 19 / 20 := by
  intro cp v hlen hv hvv
  have hm : 0 ≤ priceMomentum cp := by
    unfold priceMomentum
    positivity
  have hf : 0 ≤ 1 / (1 + v) := by positivity
  refine ⟨?_, ?_, ?_⟩
  · unfold confidenceScore priceMomentum
    congr 1
    ring
  · unfold confidenceScore
    refine le_min (by norm_num) ?_
    have h1 : 0 ≤ priceMomentum cp * (3 / 10) :=
      mul_nonneg hm (by norm_num)
    have h2 : 0 ≤ (1 / (1 + v)) * (1 / 5) :=
      mul_nonneg hf (by norm_num)
    linarith
  · exact min_le_left _ _

/-- Concrete instantiation of `confidence_score_formula_and_bounds` on a
constant 21-point series (volatility 0): the score is within bounds. -/
theorem confidence_score_bounds_check :
    1 / 2 ≤ confidenceScore (priceMomentum (List.replicate 21 (100 : ℚ))) 0
    ∧ confidenceScore (priceMomentum (List.replicate 21 (100 : ℚ))) 0 ≤ 19 / 20 := by
  have h := confidence_score_formula_and_bounds (List.replicate 21 (100 : ℚ)) 0
    (by simp) le_rfl ?hvar
  · exact ⟨h.2.1, h.2.2⟩
  case hvar =>
    have hrep : List.replicate 21 (100 : ℚ) =
        [100, 100, 100, 100, 100, 100, 100, 100, 100, 100, 100,
         100, 100, 100, 100, 100, 100, 100, 100, 100, 100] := rfl
    norm_num [annualizedVariance, sampleVariance, pctChanges, listMean, hrep]

/-- Claim C8: the price-forecast estimator returns the absent marker for
every series of fewer than 20 points, and for every backtesting cutoff
whose prefix holds fewer than 20 points. -/
theorem price_forecast_insufficient_history_absent :
    ∀ (prices : List ℚ) (cutoff : Option ℕ),
      (prices.length < 20 → calculate_stock_price_forecast prices cutoff = Option.none)
      ∧ (∀ c : ℕ, cutoff = some c → (prices.take c).length < 20 →
          calculate_stock_price_forecast prices cutoff = Option.none) := by
  intro prices cutoff
  constructor
  · intro h
    unfold calculate_stock_price_forecast
    rw [if_pos h]
  · intro c hc h
    subst hc
    unfold calculate_stock_price_forecast
    rw [List.length_take] at h
    rcases Nat.lt_or_ge prices.length 20 with hl | hl
    · rw [if_pos hl]
    · have hcl : c < 20 := by omega
      rw [if_neg (Nat.not_lt.mpr hl)]
      exact if_pos hcl

/-- Concrete instantiation of `price_forecast_insufficient_history_absent`:
a 10-point series gets no forecast, and a cutoff of 5 into a 30-point
series gets no forecast. -/
theorem price_forecast_insufficient_history_absent_check :
    calculate_stock_price_forecast (List.replicate 10 (100 : ℚ)) Option.none = Option.none
    ∧ calculate_stock_price_forecast (List.replicate 30 (100 : ℚ)) (some 5) = Option.none :=
  ⟨(price_forecast_insufficient_history_absent (List.replicate 10 (100 : ℚ))
      Option.none).1 (by simp),
   (price_forecast_insufficient_history_absent (List.replicate 30 (100 : ℚ))
      (some 5)).2 5 rfl (by simp)⟩

/-- Claim C9: `validate_ohlc` raises a `ValidationError` (models as
`isSome`) iff one of `high < low`, `high < open`, `high < close`,
`low > open`, `low > close` holds, returns normally otherwise, and the
tuple `(open=10, high=8, low=5, close=9)` is rejected with the
high-vs-open message. -/
theorem validate_ohlc_raises_iff :
    (∀ o h l c : ℚ, (validate_ohlc o h l c).isSome = true ↔
        (h < l ∨ h < o ∨ h < c ∨ l > o ∨ l > c))
    ∧ validate_ohlc 10 8 5 9 = some "High price must be >= Open price" := by
  constructor
  · intro o h l c
    unfold validate_ohlc
    split_ifs with h1 h2 h3 h4 h5
    · exact iff_of_true rfl (Or.inl h1)
    · exact iff_of_true rfl (Or.inr (Or.inl h2))
    · exact iff_of_true rfl (Or.inr (Or.inr (Or.inl h3)))
    · exact iff_of_true rfl (Or.inr (Or.inr (Or.inr (Or.inl h4))))
    · exact iff_of_true rfl (Or.inr (Or.inr (Or.inr (Or.inr h5))))
    · refine iff_of_false (by simp) ?_
      rintro (hh | hh | hh | hh | hh)
      · exact h1 hh
      · exact h2 hh
      · exact h3 hh
      · exact h4 hh
      · exact h5 hh
  · unfold validate_ohlc
    norm_num

/-- Concrete instantiation of `validate_ohlc_raises_iff`: the scenario
tuple is rejected because `high < open`. -/
theorem validate_ohlc_raises_iff_check :
    (validate_ohlc 10 8 5 9).isSome = true :=
  (validate_ohlc_raises_iff.1 10 8 5 9).mpr (Or.inr (Or.inl (by norm_num)))

lemma safe_get_price_some {v : PyVal} {f : PyFloat} (h : safe_get_price v = some f)
    (hn : f ≠ PyFloat.pnan) : ∃ q : ℚ, f = PyFloat.finite q ∧ 0 < q ∧ q ≤ 1000000 := by
  unfold safe_get_price at h
  split_ifs at h
  cases hf : pyFloat v with
  | none =>
    rw [hf] at h
    exact Option.noConfusion h
  | some g =>
    rw [hf] at h
    cases g with
    | finite q =>
      dsimp only at h
      by_cases hr : q ≤ 0 ∨ 1000000 < q
      · rw [if_pos hr] at h
        exact Option.noConfusion h
      · rw [if_neg hr] at h
        push_neg at hr
        injection h with h
        exact ⟨q, h.symm, by linarith [hr.1], hr.2⟩
    | pnan =>
      dsimp only at h
      injection h with h
      exact absurd h.symm hn
    | pinf =>
      dsimp only at h
      exact Option.noConfusion h
    | ninf =>
      dsimp only at h
      exact Option.noConfusion h

lemma safe_get_volume_nonneg : ∀ v : PyVal, 0 ≤ safe_get_volume v := by
  intro v
  unfold safe_get_volume
  split_ifs with h1 h2
  · norm_num
  · norm_num
  · cases v with
    | pyNone => norm_num
    | fnan => norm_num
    | obj => norm_num
    | finf b => norm_num
    | fin q =>
      dsimp only
      split_ifs with hn
      · norm_num
      · omega
    | str s =>
      dsimp only
      cases parseInt s with
      | none => norm_num
      | some n =>
        dsimp only
        split_ifs with hn
        · norm_num
        · omega

/-- Claim C10: the price loader's persisted rows always carry a finite
close in `(0, 1000000]` (a missing/NaN/out-of-range close makes the row
be skipped and counted as an error), and `safe_get_volume` never produces
an absent marker — its type is a bare integer and its result is always
non-negative, so every persisted row has non-negative volume. -/
theorem load_stock_prices_close_volume_invariant :
    (∀ (cid : ℕ) (rows : List RawRow) (p : PersistedPrice),
        p ∈ (load_stock_prices cid rows).1 →
        (∃ q : ℚ, p.closeP = PyFloat.finite q ∧ 0 < q ∧ q ≤ 1000000) ∧ 0 ≤ p.volume)
    ∧ (∀ v : PyVal, 0 ≤ safe_get_volume v)
    ∧ (∀ (cid : ℕ) (rows : List RawRow),
        (load_stock_prices cid rows).2.2 =
          (rows.filter (fun r => closeMissing (safe_get_price r.closeV))).length) := by
  refine ⟨?_, safe_get_volume_nonneg, ?_⟩
  · intro cid rows
    induction rows with
    | nil =>
      intro p hp
      simp [load_stock_prices] at hp
    | cons r rest ih =>
      intro p hp
      unfold load_stock_prices at hp
      cases hc : safe_get_price r.closeV with
      | none =>
        rw [hc] at hp
        exact ih p hp
      | some f =>
        rw [hc] at hp
        dsimp only at hp
        by_cases hnan : f = PyFloat.pnan
        · rw [if_pos hnan] at hp
          exact ih p hp
        · rw [if_neg hnan] at hp
          rcases List.mem_cons.mp hp with hph | hpt
          · subst hph
            exact ⟨safe_get_price_some hc hnan, safe_get_volume_nonneg _⟩
          · exact ih p hpt
  · intro cid rows
    induction rows with
    | nil => rfl
    | cons r rest ih =>
      unfold load_stock_prices
      rw [List.filter_cons]
      cases hc : safe_get_price r.closeV with
      | none =>
        simp [closeMissing, ih]
      | some f =>
        cases f with
        | finite q => simp [closeMissing, ih]
        | pnan => simp [closeMissing, ih]
        | pinf => simp [closeMissing, ih]
        | ninf => simp [closeMissing, ih]

/-- A well-formed provider row. -/
def sample_row : RawRow :=
  { date := 0, openV := PyVal.fin 10, highV := PyVal.fin 12, lowV := PyVal.fin 9,
    closeV := PyVal.fin 11, volumeV := PyVal.fin 1000 }

/-- The tuple the loader persists for `sample_row`. -/
def sample_persisted : PersistedPrice :=
  { company_id := 1, date := 0, openP := some (PyFloat.finite 10),
    highP := some (PyFloat.finite 12), lowP := some (PyFloat.finite 9),
    closeP := PyFloat.finite 11, adjP := PyFloat.finite 11, volume := 1000 }

/-- Concrete instantiation of `load_stock_prices_close_volume_invariant`
on a one-row batch. -/
theorem load_stock_prices_invariant_check :
    (∃ q : ℚ, sample_persisted.closeP = PyFloat.finite q ∧ 0 < q ∧ q ≤ 1000000)
    ∧ 0 ≤ sample_persisted.volume :=
  load_stock_prices_close_volume_invariant.1 1 [sample_row] sample_persisted (by decide)

/-- Claim C1 fails on the code (the spec records the intent): when the
revenue forecast or the EPS forecast is the absent marker, `load_forecast`
subscripts `None`, the raised `TypeError` is caught and `False` is
returned — no row at all is written, instead of the claimed row with
defaults.  Only an absent *price* forecast takes the guarded path and
still writes one row, with today's date, `target_date = forecast_date + 30`,
and the `'Hold'`/`0.5` defaults. -/
theorem load_forecast_absent_component_no_row :
    load_forecast 1 (some (⟨150, "Buy", 4 / 5⟩ : ForecastData))
      Option.none (some (⟨1, 2, 10, 28⟩ : EpsForecast))
      Option.none Option.none 0 = Option.none
    ∧ load_forecast 1 (some (⟨150, "Buy", 4 / 5⟩ : ForecastData))
      (some (⟨1, 4, 16, 10⟩ : RevenueForecast)) Option.none
      Option.none Option.none 0 = Option.none
    ∧ load_forecast 1 Option.none
      (some (⟨1, 4, 16, 10⟩ : RevenueForecast))
      (some (⟨1, 2, 10, 28⟩ : EpsForecast)) Option.none Option.none 0 =
      some (⟨1, 0, 30, Option.none, 16, 2, "Hold", 1 / 2, "Mathematical-v1.0"⟩ :
        ForecastRow) := by
  refine ⟨rfl, rfl, ?_⟩
  unfold load_forecast
  norm_num

end EquityETL
